import Mathlib

/-!
Verification of the `HintLimiter` pool decorator
(`src/cobald/decorator/hint_limiter.py`).

The decorator wraps a pool exposing numeric `demand` (read/write) and
`supply` (read).  It keeps a `hint` received over TCP, a staleness
`period`, the timestamp `_updated` of the last valid hint, and a derived
ceiling `maximum = target.supply + hint`.  Writes to `demand` first run a
freshness check (resetting the hint to `0` when stale) and are then
clamped to `[0, maximum]`, preserving the numeric type of the written
value via `type(value)(...)`.

Python numbers are modelled as a tagged value `PyNum`: an `int` carries an
integer, a `float` carries a rational (exact arithmetic; the operations
used here — comparison, `min`, `max`, small additions — are exact on the
inputs the claims concern).  Time stamps are rationals, with the current
time `time.time()` passed explicitly to each operation.  The logger is
modelled as a boolean "warning was emitted" output; the port and the
asyncio plumbing carry no clamp logic and are omitted.
-/

/-- Python numeric value: an `int` or a `float`, the latter modelled
exactly as a rational. -/
inductive PyNum where
  | int : Int → PyNum
  | float : ℚ → PyNum
deriving DecidableEq, Repr

/-- Numeric value of a `PyNum`. -/
def PyNum.val : PyNum → ℚ
  | .int n => (n : ℚ)
  | .float q => q

/-- Whether a `PyNum` is of integer kind. -/
def PyNum.isInt : PyNum → Bool
  | .int _ => true
  | .float _ => false

/-- Two `PyNum`s have the same numeric kind (both `int` or both `float`). -/
def sameKind (a b : PyNum) : Prop := a.isInt = b.isInt

instance (a b : PyNum) : Decidable (sameKind a b) := by
  unfold sameKind; infer_instance

/-- Python `int(x)` on a real number: truncation toward zero. -/
def pyIntOfRat (q : ℚ) : Int := if 0 ≤ q then ⌊q⌋ else ⌈q⌉

/-- Python `type(kind)(q)`: convert the numeric value `q` to the numeric
kind of `kind`, as done by `type(value)(demand)` in `_clamp_demand`. -/
def pyConvert : PyNum → ℚ → PyNum
  | .int _, q => .int (pyIntOfRat q)
  | .float _, q => .float q

/-- Python `+` on numbers: `int + int` is an `int`, any other mix is a
`float`. -/
def pyAdd : PyNum → PyNum → PyNum
  | .int a, .int b => .int (a + b)
  | a, b => .float (a.val + b.val)

/-- State of a `HintLimiter` together with the wrapped pool's observable
fields.  `target_demand` and `target_supply` are the wrapped pool's
`demand` and `supply`; `updated` is the `_updated` timestamp. -/
structure HintLimiter where
  target_demand : PyNum
  target_supply : PyNum
  hint : PyNum
  period : ℚ
  updated : ℚ
  maximum : PyNum
deriving DecidableEq, Repr

namespace HintLimiter

/-- `set_max`: `self.maximum = self.target.supply + self.hint`. -/
def set_max (s : HintLimiter) : HintLimiter :=
  { s with maximum := pyAdd s.target_supply s.hint }

/-- `_check_freshness`: if `time.time() - self._updated > self.period`,
set `self.hint = 0` and recompute the maximum via `set_max`. -/
def check_freshness (now : ℚ) (s : HintLimiter) : HintLimiter :=
  if now - s.updated > s.period then set_max { s with hint := .int 0 } else s

/-- `_clamp_demand`: `type(value)(max(0, min(self.maximum, value)))`. -/
def clamp_demand (s : HintLimiter) (value : PyNum) : PyNum :=
  pyConvert value (max 0 (min s.maximum.val value.val))

/-- The `demand` property getter: `return self.target.demand`.  The read
performs no mutation, which the pair-returning shape makes explicit. -/
def demand_get (s : HintLimiter) : PyNum × HintLimiter :=
  (s.target_demand, s)

/-- The `demand` property setter: run `_check_freshness`, then write
`_clamp_demand(value)` to `target.demand`. -/
def demand_set (now : ℚ) (s : HintLimiter) (value : PyNum) : HintLimiter :=
  let s1 := check_freshness now s
  { s1 with target_demand := clamp_demand s1 value }

/-- `__init__`: `hint = 0`, record `period`, `_updated = time.time()`,
then `set_max()`.  The pool's current fields are passed in. -/
def init (demand supply : PyNum) (period now : ℚ) : HintLimiter :=
  set_max
    { target_demand := demand
      target_supply := supply
      hint := .int 0
      period := period
      updated := now
      maximum := .int 0 }

end HintLimiter

/-- Accumulate decimal digits into a natural number. -/
def digitsVal (cs : List Char) : Nat :=
  cs.foldl (fun a c => a * 10 + (c.toNat - 48)) 0

/-- Whitespace characters stripped by Python's `float` before parsing. -/
def pySpace (c : Char) : Bool :=
  c == ' ' || c == '\t' || c == '\n' || c == '\r' || c == '\x0b' || c == '\x0c'

/-- Strip leading and trailing whitespace from a character list. -/
def stripSpace (cs : List Char) : List Char :=
  ((cs.dropWhile pySpace).reverse.dropWhile pySpace).reverse

/-- Python `float(text)` on a decoded payload, modelled for finite decimal
literals: optional surrounding whitespace, an optional sign, digits with an
optional fractional part, and an optional decimal exponent.  The `inf`,
`nan` and digit-underscore forms of CPython fall outside the rational
model and the claims, and are not represented.  Returns `none` exactly
when CPython's `float` raises `ValueError` on such literals. -/
def pyFloatParse (s : String) : Option ℚ :=
  let cs0 := stripSpace s.toList
  let signed : Bool × List Char :=
    match cs0 with
    | '-' :: r => (true, r)
    | '+' :: r => (false, r)
    | r => (false, r)
  let neg := signed.1
  let cs1 := signed.2
  let ip := cs1.takeWhile Char.isDigit
  let cs2 := cs1.dropWhile Char.isDigit
  let fracSplit : List Char × List Char :=
    match cs2 with
    | '.' :: r => (r.takeWhile Char.isDigit, r.dropWhile Char.isDigit)
    | r => ([], r)
  let fp := fracSplit.1
  let cs3 := fracSplit.2
  if ip.isEmpty ∧ fp.isEmpty then none
  else
    let mantissa : ℚ := (digitsVal ip : ℚ) + (digitsVal fp : ℚ) / ((10 : ℚ) ^ fp.length)
    let scaled : Option ℚ :=
      match cs3 with
      | [] => some mantissa
      | 'e' :: r | 'E' :: r =>
        let esigned : Bool × List Char :=
          match r with
          | '-' :: r2 => (true, r2)
          | '+' :: r2 => (false, r2)
          | r2 => (false, r2)
        let ed := esigned.2.takeWhile Char.isDigit
        let rest := esigned.2.dropWhile Char.isDigit
        if ed.isEmpty ∨ ¬ rest.isEmpty then none
        else if esigned.1 then some (mantissa / ((10 : ℚ) ^ digitsVal ed))
        else some (mantissa * ((10 : ℚ) ^ digitsVal ed))
      | _ => none
    scaled.map (fun q => if neg then -q else q)

/-- `_handle_hint`: read the whole payload, try `float(payload)`.  On
success set `hint` to the parsed float, stamp `_updated = time.time()`
and log a debug line; on `ValueError` set `hint = 0` and log a warning,
leaving `_updated` unchanged.  Either way finish with `set_max()`.  The
returned boolean records whether the warning was emitted. -/
def handle_hint (now : ℚ) (s : HintLimiter) (payload : String) :
    HintLimiter × Bool :=
  match pyFloatParse payload with
  | some q => (HintLimiter.set_max { s with hint := .float q, updated := now }, false)
  | none => (HintLimiter.set_max { s with hint := .int 0 }, true)

section Helpers

lemma pyAdd_val (a b : PyNum) : (pyAdd a b).val = a.val + b.val := by
  cases a <;> cases b <;> simp [pyAdd, PyNum.val]

lemma pyAdd_int_zero_val (a : PyNum) : (pyAdd a (.int 0)).val = a.val := by
  rw [pyAdd_val]; simp [PyNum.val]

lemma sameKind_pyConvert (v : PyNum) (q : ℚ) : sameKind (pyConvert v q) v := by
  cases v <;> simp [pyConvert, sameKind, PyNum.isInt]

lemma pyIntOfRat_nonneg {q : ℚ} (h : 0 ≤ q) : 0 ≤ pyIntOfRat q := by
  rw [pyIntOfRat, if_pos h]
  exact Int.floor_nonneg.2 h

lemma pyIntOfRat_le {q : ℚ} (h : 0 ≤ q) : ((pyIntOfRat q : ℚ)) ≤ q := by
  rw [pyIntOfRat, if_pos h]
  exact Int.floor_le q

lemma pyConvert_val_nonneg (v : PyNum) {q : ℚ} (h : 0 ≤ q) :
    0 ≤ (pyConvert v q).val := by
  cases v with
  | int n =>
    simpa [pyConvert, PyNum.val] using (by exact_mod_cast pyIntOfRat_nonneg h : (0:ℚ) ≤ (pyIntOfRat q : ℚ))
  | float x => simpa [pyConvert, PyNum.val] using h

lemma pyConvert_val_le (v : PyNum) {q : ℚ} (h : 0 ≤ q) :
    (pyConvert v q).val ≤ q := by
  cases v with
  | int n => simpa [pyConvert, PyNum.val] using pyIntOfRat_le h
  | float x => simp [pyConvert, PyNum.val]

lemma check_freshness_of_fresh {now : ℚ} {s : HintLimiter}
    (h : now - s.updated ≤ s.period) : HintLimiter.check_freshness now s = s := by
  rw [HintLimiter.check_freshness, if_neg (not_lt.2 h)]

lemma check_freshness_of_stale {now : ℚ} {s : HintLimiter}
    (h : s.period < now - s.updated) :
    HintLimiter.check_freshness now s =
      HintLimiter.set_max { s with hint := .int 0 } := by
  rw [HintLimiter.check_freshness, if_pos h]

end Helpers

/-- Claim C7: reading the `demand` property returns `target.demand`
unmodified and mutates nothing — no clamp, no freshness check; `hint`,
`updated` and `maximum` are untouched by the read. -/
theorem C7_demand_get_pure (s : HintLimiter) :
    HintLimiter.demand_get s = (s.target_demand, s) := rfl

/-- Claim C2: when strictly more than `period` has elapsed since the last
timestamp update, the freshness check run by a demand write forces
`hint = 0` and recomputes `maximum = target.supply + 0`, so the write
observes `hint = 0` and `maximum` numerically equal to the supply; when
the elapsed time is at most `period`, the freshness check is the
identity. -/
theorem C2_freshness_check (now : ℚ) (s : HintLimiter) (v : PyNum) :
    (s.period < now - s.updated →
      (HintLimiter.check_freshness now s).hint = .int 0 ∧
      (HintLimiter.check_freshness now s).maximum = pyAdd s.target_supply (.int 0) ∧
      (HintLimiter.check_freshness now s).maximum.val = s.target_supply.val ∧
      (HintLimiter.demand_set now s v).hint = .int 0 ∧
      (HintLimiter.demand_set now s v).maximum.val = s.target_supply.val) ∧
    (now - s.updated ≤ s.period → HintLimiter.check_freshness now s = s) := by
  constructor
  · intro hst
    rw [HintLimiter.demand_set, check_freshness_of_stale hst]
    refine ⟨rfl, rfl, pyAdd_int_zero_val _, rfl, ?_⟩
    simpa [HintLimiter.set_max] using pyAdd_int_zero_val s.target_supply
  · intro hfr
    exact check_freshness_of_fresh hfr

/-- Witness for C2 at a concrete stale state and a concrete fresh state. -/
theorem C2_freshness_check_witness :
    ((5:ℚ) < 7 - 0 →
      (HintLimiter.check_freshness 7
        ⟨.int 1, .int 10, .float 3, 5, 0, .float 13⟩).hint = .int 0 ∧
      (HintLimiter.check_freshness 7
        ⟨.int 1, .int 10, .float 3, 5, 0, .float 13⟩).maximum = pyAdd (.int 10) (.int 0) ∧
      (HintLimiter.check_freshness 7
        ⟨.int 1, .int 10, .float 3, 5, 0, .float 13⟩).maximum.val = (PyNum.int 10).val ∧
      (HintLimiter.demand_set 7
        ⟨.int 1, .int 10, .float 3, 5, 0, .float 13⟩ (.int 20)).hint = .int 0 ∧
      (HintLimiter.demand_set 7
        ⟨.int 1, .int 10, .float 3, 5, 0, .float 13⟩ (.int 20)).maximum.val = (PyNum.int 10).val) ∧
    ((7:ℚ) - 0 ≤ 5 → HintLimiter.check_freshness 7
        ⟨.int 1, .int 10, .float 3, 5, 0, .float 13⟩ = ⟨.int 1, .int 10, .float 3, 5, 0, .float 13⟩) :=
  C2_freshness_check 7 ⟨.int 1, .int 10, .float 3, 5, 0, .float 13⟩ (.int 20)

/-- Claim C8: a demand write in the fresh case (elapsed time at most
`period`) changes only `target.demand`; `hint`, `updated`, `maximum`,
`period` and the supply are exactly as before the write. -/
theorem C8_fresh_write_frame (now : ℚ) (s : HintLimiter) (v : PyNum)
    (hfr : now - s.updated ≤ s.period) :
    (HintLimiter.demand_set now s v).hint = s.hint ∧
    (HintLimiter.demand_set now s v).updated = s.updated ∧
    (HintLimiter.demand_set now s v).maximum = s.maximum ∧
    (HintLimiter.demand_set now s v).target_supply = s.target_supply ∧
    (HintLimiter.demand_set now s v).period = s.period ∧
    (HintLimiter.demand_set now s v).target_demand =
      HintLimiter.clamp_demand s v := by
  rw [HintLimiter.demand_set, check_freshness_of_fresh hfr]
  exact ⟨rfl, rfl, rfl, rfl, rfl, rfl⟩

/-- Witness for C8 at a concrete fresh state. -/
theorem C8_fresh_write_frame_witness :
    (HintLimiter.demand_set 3 ⟨.int 1, .int 10, .float 3, 5, 0, .float 13⟩ (.int 20)).hint = (PyNum.float 3) ∧
    (HintLimiter.demand_set 3 ⟨.int 1, .int 10, .float 3, 5, 0, .float 13⟩ (.int 20)).updated = 0 ∧
    (HintLimiter.demand_set 3 ⟨.int 1, .int 10, .float 3, 5, 0, .float 13⟩ (.int 20)).maximum = (PyNum.float 13) ∧
    (HintLimiter.demand_set 3 ⟨.int 1, .int 10, .float 3, 5, 0, .float 13⟩ (.int 20)).target_supply = (PyNum.int 10) ∧
    (HintLimiter.demand_set 3 ⟨.int 1, .int 10, .float 3, 5, 0, .float 13⟩ (.int 20)).period = 5 ∧
    (HintLimiter.demand_set 3 ⟨.int 1, .int 10, .float 3, 5, 0, .float 13⟩ (.int 20)).target_demand =
      HintLimiter.clamp_demand ⟨.int 1, .int 10, .float 3, 5, 0, .float 13⟩ (.int 20) :=
  C8_fresh_write_frame 3 ⟨.int 1, .int 10, .float 3, 5, 0, .float 13⟩ (.int 20) (by norm_num)

/-- Claim C4: a payload that does not parse as a number makes the handler
set `hint = 0`, leave the `_updated` timestamp unchanged, recompute
`maximum = target.supply + 0`, and emit a warning; the handler returns
normally (it is a total function of the state), so the error never
propagates. -/
theorem C4_invalid_hint (now : ℚ) (s : HintLimiter) (raw : String)
    (hp : pyFloatParse raw = none) :
    handle_hint now s raw =
      ({ s with hint := .int 0, maximum := pyAdd s.target_supply (.int 0) }, true) ∧
    (handle_hint now s raw).1.updated = s.updated ∧
    (handle_hint now s raw).1.maximum.val = s.target_supply.val ∧
    (handle_hint now s raw).2 = true := by
  rw [handle_hint, hp]
  exact ⟨rfl, rfl, pyAdd_int_zero_val _, rfl⟩

/-- Witness for C4 on the unparseable payload "abc". -/
theorem C4_invalid_hint_witness :
    handle_hint 2 ⟨.int 1, .int 10, .float 3, 5, 0, .float 13⟩ "abc" =
      ({ target_demand := .int 1, target_supply := .int 10, hint := .int 0,
         period := 5, updated := 0, maximum := pyAdd (.int 10) (.int 0) }, true) ∧
    (handle_hint 2 ⟨.int 1, .int 10, .float 3, 5, 0, .float 13⟩ "abc").1.updated = 0 ∧
    (handle_hint 2 ⟨.int 1, .int 10, .float 3, 5, 0, .float 13⟩ "abc").1.maximum.val = (PyNum.int 10).val ∧
    (handle_hint 2 ⟨.int 1, .int 10, .float 3, 5, 0, .float 13⟩ "abc").2 = true :=
  C4_invalid_hint 2 ⟨.int 1, .int 10, .float 3, 5, 0, .float 13⟩ "abc" (by decide)

/-- Claim C10: the empty payload does not parse as a number, so the
handler takes the parse-failure path: `hint = 0`, timestamp unchanged,
warning emitted, `maximum` recomputed from the current supply — no
separate treatment of the empty read. -/
theorem C10_empty_payload (now : ℚ) (s : HintLimiter) :
    pyFloatParse "" = none ∧
    handle_hint now s "" =
      ({ s with hint := .int 0, maximum := pyAdd s.target_supply (.int 0) }, true) ∧
    (handle_hint now s "").1.updated = s.updated ∧
    (handle_hint now s "").1.maximum.val = s.target_supply.val ∧
    (handle_hint now s "").2 = true := by
  have hp : pyFloatParse "" = none := by decide
  rw [handle_hint, hp]
  exact ⟨hp, rfl, rfl, pyAdd_int_zero_val _, rfl⟩

/-- Claim C3: a payload that parses as the number `h` makes the handler
set `hint` to `h` (as a float), stamp the freshness timestamp with the
current time, and recompute `maximum`, whose numeric value then equals
`target.supply + h`. -/
theorem C3_valid_hint (now : ℚ) (s : HintLimiter) (raw : String) (h : ℚ)
    (hp : pyFloatParse raw = some h) :
    handle_hint now s raw =
      ({ s with
          hint := .float h, updated := now,
          maximum := pyAdd s.target_supply (.float h) }, false) ∧
    (handle_hint now s raw).1.maximum.val = s.target_supply.val + h := by
  rw [handle_hint, hp]
  refine ⟨rfl, ?_⟩
  simpa [PyNum.val] using pyAdd_val s.target_supply (.float h)

/-- Witness for C3 on the payload "3" with supply 10. -/
theorem C3_valid_hint_witness :
    handle_hint 2 ⟨.int 1, .int 10, .int 0, 5, 0, .int 10⟩ "3" =
      ({ target_demand := .int 1, target_supply := .int 10, hint := .float 3,
         period := 5, updated := 2, maximum := pyAdd (.int 10) (.float 3) }, false) ∧
    (handle_hint 2 ⟨.int 1, .int 10, .int 0, 5, 0, .int 10⟩ "3").1.maximum.val = (PyNum.int 10).val + 3 :=
  C3_valid_hint 2 ⟨.int 1, .int 10, .int 0, 5, 0, .int 10⟩ "3" 3
    (by simp [pyFloatParse, stripSpace, pySpace, digitsVal])

/-- Claim C1 counterexample: with a fractional float ceiling `m = 27/2`
and an integer write `v = 20`, the setter writes `int(27/2) = 13`, whose
numeric value differs from `max(0, min(m, v)) = 27/2`; the claim's exact
equality fails for integer inputs under a fractional ceiling. -/
theorem C1_counterexample :
    (HintLimiter.demand_set 0
        ⟨.int 0, .int 10, .float (7/2), 5, 0, .float (27/2)⟩
        (.int 20)).target_demand = .int 13 ∧
    ¬ ((HintLimiter.demand_set 0
        ⟨.int 0, .int 10, .float (7/2), 5, 0, .float (27/2)⟩
        (.int 20)).target_demand.val
          = max 0 (min (PyNum.float (27/2)).val (PyNum.int 20).val)) := by
  constructor
  · simp [HintLimiter.demand_set, HintLimiter.check_freshness,
      HintLimiter.clamp_demand, HintLimiter.set_max, pyConvert, pyIntOfRat,
      PyNum.val, pyAdd]
    norm_num [min_def, max_def]
  · intro hcontra
    simp [HintLimiter.demand_set, HintLimiter.check_freshness,
      HintLimiter.clamp_demand, HintLimiter.set_max, pyConvert, pyIntOfRat,
      PyNum.val, pyAdd, min_def, max_def] at hcontra
    norm_num at hcontra

/-- Claim C1 as amended: under a fresh state with ceiling `m`, the setter
writes `type(v)(max(0, min(m, v)))` — the clamp result converted to the
numeric kind of `v` (truncated toward zero when `v` is an integer) — so
the written value has `v`'s kind, equals the clamp result exactly when
`v` is a float, and no error is raised (the setter is total). -/
theorem C1_demand_setter (now : ℚ) (s : HintLimiter) (v : PyNum)
    (hfr : now - s.updated ≤ s.period) :
    (HintLimiter.demand_set now s v).target_demand
        = pyConvert v (max 0 (min s.maximum.val v.val)) ∧
    sameKind ((HintLimiter.demand_set now s v).target_demand) v ∧
    (v.isInt = false →
      ((HintLimiter.demand_set now s v).target_demand).val
        = max 0 (min s.maximum.val v.val)) := by
  rw [HintLimiter.demand_set, check_freshness_of_fresh hfr]
  refine ⟨rfl, ?_, ?_⟩
  · exact sameKind_pyConvert v _
  · intro hv
    cases v with
    | int n => simp [PyNum.isInt] at hv
    | float x => simp [HintLimiter.clamp_demand, pyConvert, PyNum.val]

/-- Witness for the amended C1 at a float write under ceiling 27/2. -/
theorem C1_demand_setter_witness :
    (HintLimiter.demand_set 0
        ⟨.int 0, .int 10, .float (7/2), 5, 0, .float (27/2)⟩
        (.float 20)).target_demand
        = pyConvert (.float 20)
            (max 0 (min (PyNum.float (27/2)).val (PyNum.float 20).val)) ∧
    sameKind ((HintLimiter.demand_set 0
        ⟨.int 0, .int 10, .float (7/2), 5, 0, .float (27/2)⟩
        (.float 20)).target_demand) (.float 20) ∧
    ((PyNum.float 20).isInt = false →
      ((HintLimiter.demand_set 0
        ⟨.int 0, .int 10, .float (7/2), 5, 0, .float (27/2)⟩
        (.float 20)).target_demand).val
          = max 0 (min (PyNum.float (27/2)).val (PyNum.float 20).val)) :=
  C1_demand_setter 0 ⟨.int 0, .int 10, .float (7/2), 5, 0, .float (27/2)⟩
    (.float 20) (by norm_num)

/-- Claim C5 counterexample: in the reachable fresh state with supply 2
and hint -7 the ceiling is `maximum = -5`; writing demand 3 stores 0,
and `0 ≤ target.demand ≤ maximum` fails because `maximum < 0`. -/
theorem C5_counterexample :
    (HintLimiter.demand_set 0
        ⟨.int 0, .int 2, .float (-7), 5, 0, .float (-5)⟩
        (.int 3)).target_demand.val = 0 ∧
    (HintLimiter.demand_set 0
        ⟨.int 0, .int 2, .float (-7), 5, 0, .float (-5)⟩
        (.int 3)).maximum.val = -5 ∧
    ¬ ((HintLimiter.demand_set 0
        ⟨.int 0, .int 2, .float (-7), 5, 0, .float (-5)⟩
        (.int 3)).target_demand.val
          ≤ (HintLimiter.demand_set 0
        ⟨.int 0, .int 2, .float (-7), 5, 0, .float (-5)⟩
        (.int 3)).maximum.val) := by
  refine ⟨?_, ?_, ?_⟩ <;>
    simp [HintLimiter.demand_set, HintLimiter.check_freshness,
      HintLimiter.clamp_demand, HintLimiter.set_max, pyConvert, pyIntOfRat,
      PyNum.val, pyAdd, min_def, max_def] <;> norm_num

/-- Claim C5 as amended: after any demand write the stored demand is
nonnegative and at most `max(0, maximum)`; in particular it is at most
`maximum` whenever `maximum ≥ 0`, while a negative ceiling (negative hint
below the supply) yields a stored demand of 0 above the ceiling. -/
theorem C5_invariant (now : ℚ) (s : HintLimiter) (v : PyNum) :
    0 ≤ (HintLimiter.demand_set now s v).target_demand.val ∧
    (HintLimiter.demand_set now s v).target_demand.val
      ≤ max 0 (HintLimiter.demand_set now s v).maximum.val := by
  have hq : (0:ℚ) ≤
      max 0 (min (HintLimiter.check_freshness now s).maximum.val v.val) :=
    le_max_left _ _
  constructor
  · exact pyConvert_val_nonneg v hq
  · refine le_trans (pyConvert_val_le v hq) ?_
    exact max_le_max le_rfl (min_le_left _ _)

/-- Claim C6: the concrete scenario with supply 10 and period 5: after
hint "3" the ceiling is 13 and writing demand 20 stores 13; six time
units later with no further hint, writing demand 20 stores 10 (drain
mode); and writing demand -5 under ceiling 13 stores 0. -/
theorem C6_scenario :
    ((handle_hint 0 (HintLimiter.init (.int 0) (.int 10) 5 0) "3").1).maximum.val = 13 ∧
    (HintLimiter.demand_set 0
      ((handle_hint 0 (HintLimiter.init (.int 0) (.int 10) 5 0) "3").1)
      (.int 20)).target_demand = .int 13 ∧
    (HintLimiter.demand_set 6
      (HintLimiter.demand_set 0
        ((handle_hint 0 (HintLimiter.init (.int 0) (.int 10) 5 0) "3").1)
        (.int 20))
      (.int 20)).target_demand = .int 10 ∧
    (HintLimiter.demand_set 0
      ((handle_hint 0 (HintLimiter.init (.int 0) (.int 10) 5 0) "3").1)
      (.int (-5))).target_demand = .int 0 := by
  refine ⟨?_, ?_, ?_, ?_⟩ <;>
    simp [handle_hint, pyFloatParse, stripSpace, pySpace, digitsVal,
      HintLimiter.init, HintLimiter.demand_set, HintLimiter.check_freshness,
      HintLimiter.clamp_demand, HintLimiter.set_max, pyConvert, pyIntOfRat,
      PyNum.val, pyAdd, min_def, max_def] <;> norm_num

/-- Claim C9: the staleness reset never touches the `_updated` timestamp,
so a stale state stays stale for every later demand write until a valid
hint arrives, and each such write recomputes `maximum` from the supply
current at that write. -/
theorem C9_stale_persists (t1 t2 : ℚ) (s : HintLimiter) (v1 v2 : PyNum)
    (supply2 : PyNum) (hst : s.period < t1 - s.updated) (hle : t1 ≤ t2) :
    (HintLimiter.check_freshness t1 s).updated = s.updated ∧
    (HintLimiter.demand_set t1 s v1).updated = s.updated ∧
    ({ HintLimiter.demand_set t1 s v1 with target_supply := supply2 }).period
        < t2 - ({ HintLimiter.demand_set t1 s v1 with target_supply := supply2 }).updated ∧
    (HintLimiter.demand_set t2
      { HintLimiter.demand_set t1 s v1 with target_supply := supply2 }
      v2).hint = .int 0 ∧
    (HintLimiter.demand_set t2
      { HintLimiter.demand_set t1 s v1 with target_supply := supply2 }
      v2).maximum.val = supply2.val := by
  have hup : (HintLimiter.demand_set t1 s v1).updated = s.updated := by
    simp [HintLimiter.demand_set, check_freshness_of_stale hst, HintLimiter.set_max]
  have hper : (HintLimiter.demand_set t1 s v1).period = s.period := by
    simp [HintLimiter.demand_set, check_freshness_of_stale hst, HintLimiter.set_max]
  have hst2 :
      ({ HintLimiter.demand_set t1 s v1 with target_supply := supply2 }).period
        < t2 - ({ HintLimiter.demand_set t1 s v1 with target_supply := supply2 }).updated := by
    show (HintLimiter.demand_set t1 s v1).period
        < t2 - (HintLimiter.demand_set t1 s v1).updated
    rw [hup, hper]
    linarith
  have hst2q : s.period < t2 - s.updated := by linarith
  refine ⟨?_, hup, hst2, ?_, ?_⟩
  · simp [check_freshness_of_stale hst, HintLimiter.set_max]
  · simp [HintLimiter.demand_set, HintLimiter.check_freshness, HintLimiter.set_max,
      hst, hst2q]
  · simp [HintLimiter.demand_set, HintLimiter.check_freshness, HintLimiter.set_max,
      hst, hst2q, pyAdd_int_zero_val]

/-- Witness for C9: stale at time 7 (period 5, last update 0), supply
changed to 4 before a second write at time 9. -/
theorem C9_stale_persists_witness :
    (HintLimiter.check_freshness 7 ⟨.int 1, .int 10, .float 3, 5, 0, .float 13⟩).updated = 0 ∧
    (HintLimiter.demand_set 7 ⟨.int 1, .int 10, .float 3, 5, 0, .float 13⟩ (.int 20)).updated = 0 ∧
    ({ HintLimiter.demand_set 7 ⟨.int 1, .int 10, .float 3, 5, 0, .float 13⟩ (.int 20) with target_supply := PyNum.int 4 }).period
        < 9 - ({ HintLimiter.demand_set 7 ⟨.int 1, .int 10, .float 3, 5, 0, .float 13⟩ (.int 20) with target_supply := PyNum.int 4 }).updated ∧
    (HintLimiter.demand_set 9
      { HintLimiter.demand_set 7 ⟨.int 1, .int 10, .float 3, 5, 0, .float 13⟩ (.int 20) with target_supply := PyNum.int 4 }
      (.int 20)).hint = .int 0 ∧
    (HintLimiter.demand_set 9
      { HintLimiter.demand_set 7 ⟨.int 1, .int 10, .float 3, 5, 0, .float 13⟩ (.int 20) with target_supply := PyNum.int 4 }
      (.int 20)).maximum.val = (PyNum.int 4).val :=
  C9_stale_persists 7 9 ⟨.int 1, .int 10, .float 3, 5, 0, .float 13⟩
    (.int 20) (.int 20) (.int 4) (by norm_num) (by norm_num)
